import Mathlib

/-!
Verification of the drag-and-drop resolution logic of the `lancer` Foundry VTT
system module (`src/module/helpers/dragdrop.ts`) and of its effects view
helpers, against a shallow embedding of the TypeScript source.

Modelling conventions:

* Foundry `Collection.get` is an exact string-keyed lookup that returns
  `undefined` for a missing or `undefined` key; we model collections as
  association lists and keys taken from possibly-absent JSON fields as
  `Option String`, with `cget` returning `none` for an absent key.
* JavaScript string truthiness (`if (drop.pack)`) is `truthy`: an absent field
  and the empty string are falsy, every other string is truthy.
* `safe_json_parse` (defined in `helpers/commons.ts`, outside the sources) is
  kept abstract: every theorem quantifies over an arbitrary
  `parse : String → Option NativeDrop`. A `none` result covers both invalid
  JSON and any falsy parse (the source then returns `null` at `if (!drop)`);
  a truthy non-object parse behaves like a record with every field absent and
  so is covered by `some` of an all-`none` record.
* The source is `async` and uses the non-null assertion
  `game.packs.get(drop.pack)!.getDocument(...)`: when the named pack does not
  exist this dereferences `undefined` and the call throws a `TypeError`
  (a rejected promise). We model the result type as
  `Except Unit (Option _)`, with `Except.error ()` standing for a thrown
  exception and `Except.ok none` for a returned `null`.
* TypeScript `as` casts are erased at runtime and the host document classes are
  out of scope for this repository, so all Foundry documents are modelled by a
  single type `Document` carrying an id and an embedded-items collection; a
  resolved drop tags the document with the `type` string the source returns.
-/

set_option autoImplicit false

namespace LancerDragDrop

/-- A Foundry document (actor, item, or journal entry): an id plus the embedded
`items` collection (empty for documents that have none). -/
inductive Document where
  | mk (docId : String) (items : List (String × Document))

def Document.docId : Document → String
  | .mk i _ => i

def Document.items : Document → List (String × Document)
  | .mk _ its => its

/-- A token placed in a scene; its `actor` may be null. -/
structure Token where
  tokenActor : Option Document

/-- A scene, with its token collection. -/
structure Scene where
  tokens : List (String × Token)

/-- A compendium pack; `getDocument` looks up `docs` by id. -/
structure Pack where
  docs : List (String × Document)

/-- The host-managed collections read by the drag-and-drop code:
`game.actors`, `game.items`, `game.journals`, `game.scenes`, `game.packs`. -/
structure GameState where
  actors : List (String × Document)
  items : List (String × Document)
  journals : List (String × Document)
  scenes : List (String × Scene)
  packs : List (String × Pack)

/-- `Collection.get` with a possibly-absent key: `get(undefined)` is
`undefined`. -/
def cget {α : Type} (m : List (String × α)) (k : Option String) : Option α :=
  match k with
  | none => none
  | some s => m.lookup s

/-- JavaScript truthiness of a possibly-absent string field: absent and `""`
are falsy. -/
def truthy : Option String → Bool
  | none => false
  | some s => !(s == "")

/-- The parsed shape of a native Foundry drop payload (`NativeDrop` in the
source): a JSON object whose fields may all be absent. -/
structure NativeDrop where
  type : Option String := none
  id : Option String := none
  pack : Option String := none
  actorId : Option String := none
  tokenId : Option String := none
  sceneId : Option String := none

/-- `ResolvedNativeDrop` without the `null` case: the `type` tag together with
the resolved entity. -/
inductive ResolvedNativeDrop where
  | item (entity : Document)
  | actor (entity : Document)
  | journal (entity : Document)

/-- The body of `resolve_native_drop` after `safe_json_parse` succeeded
(dragdrop.ts lines 242-322). `Except.error ()` models the `TypeError` thrown
by `game.packs.get(drop.pack)!.getDocument(...)` when the pack is missing. -/
def resolve_drop (g : GameState) (drop : NativeDrop) :
    Except Unit (Option ResolvedNativeDrop) :=
  if drop.type = some "Item" then
    if truthy drop.pack && truthy drop.actorId then
      -- Case 1 - Item is from a Compendium actor item
      let actor := (cget g.packs drop.pack).bind fun p => cget p.docs drop.actorId
      .ok ((actor.bind fun a => cget a.items drop.id).map .item)
    else if truthy drop.sceneId && truthy drop.tokenId then
      -- Case 2 - Item is a token actor item
      let actor :=
        (((cget g.scenes drop.sceneId).bind fun sc => cget sc.tokens drop.tokenId).bind
          Token.tokenActor)
      .ok ((actor.bind fun a => cget a.items drop.id).map .item)
    else if truthy drop.actorId then
      -- Case 3 - Item is a game actor item
      let actor := cget g.actors drop.actorId
      .ok ((actor.bind fun a => cget a.items drop.id).map .item)
    else if truthy drop.pack then
      -- Case 4 - Item is from a Compendium; the source dereferences the pack
      -- with `!`, so a missing pack throws
      match cget g.packs drop.pack with
      | none => .error ()
      | some p => .ok ((cget p.docs drop.id).map .item)
    else
      -- Case 5 - item is a game item
      .ok ((cget g.items drop.id).map .item)
  else if drop.type = some "Actor" then
    if truthy drop.pack then
      -- Case 1 - Actor is from a Compendium pack (`!` dereference)
      match cget g.packs drop.pack with
      | none => .error ()
      | some p => .ok ((cget p.docs drop.id).map .actor)
    else if truthy drop.sceneId && truthy drop.actorId then
      -- Case 2 - Actor is a scene token (looked up by drop.tokenId)
      .ok
        (((((cget g.scenes drop.sceneId).bind fun sc => cget sc.tokens drop.tokenId).bind
          Token.tokenActor)).map .actor)
    else
      -- Case 3 - Actor is a game actor
      .ok ((cget g.actors drop.id).map .actor)
  else if drop.type = some "JournalEntry" then
    if truthy drop.pack then
      -- Case 1 - JournalEntry is from a Compendium pack (`!` dereference)
      match cget g.packs drop.pack with
      | none => .error ()
      | some p => .ok ((cget p.docs drop.id).map .journal)
    else
      -- Case 2 - JournalEntry is a World entity
      .ok ((cget g.journals drop.id).map .journal)
  else
    -- All else fails
    .ok none

/-- `resolve_native_drop` (dragdrop.ts lines 237-323), parameterised by the
abstract `safe_json_parse`. -/
def resolve_native_drop (parse : String → Option NativeDrop) (g : GameState)
    (event_data : String) : Except Unit (Option ResolvedNativeDrop) :=
  match parse event_data with
  | none => .ok none
  | some drop => resolve_drop g drop

/-- Spec-side dispatch for `"Item"` drops, written from claim C1's words: the
single entity location consulted, chosen by the first matching case. -/
def item_case_lookup (g : GameState) (drop : NativeDrop) : Option Document :=
  if truthy drop.pack && truthy drop.actorId then
    ((cget g.packs drop.pack).bind fun p => cget p.docs drop.actorId).bind fun a =>
      cget a.items drop.id
  else if truthy drop.sceneId && truthy drop.tokenId then
    ((((cget g.scenes drop.sceneId).bind fun sc => cget sc.tokens drop.tokenId).bind
      Token.tokenActor)).bind fun a => cget a.items drop.id
  else if truthy drop.actorId then
    (cget g.actors drop.actorId).bind fun a => cget a.items drop.id
  else if truthy drop.pack then
    (cget g.packs drop.pack).bind fun p => cget p.docs drop.id
  else
    cget g.items drop.id

/-- The condition under which the `"Item"` branch throws: the compendium case
(case 4) is selected and the named pack does not exist. -/
def item_throw (g : GameState) (drop : NativeDrop) : Bool :=
  truthy drop.pack && !truthy drop.actorId &&
    !(truthy drop.sceneId && truthy drop.tokenId) && (cget g.packs drop.pack).isNone

/-- Spec-side dispatch for `"Actor"` drops, written from claim C2's words:
compendium pack first, then scene token, then world actor. -/
def actor_case_lookup (g : GameState) (drop : NativeDrop) : Option Document :=
  if truthy drop.pack then
    (cget g.packs drop.pack).bind fun p => cget p.docs drop.id
  else if truthy drop.sceneId && truthy drop.actorId then
    (((cget g.scenes drop.sceneId).bind fun sc => cget sc.tokens drop.tokenId).bind
      Token.tokenActor)
  else
    cget g.actors drop.id

/-- Spec-side dispatch for `"JournalEntry"` drops, written from claim C4's
words: the named compendium pack when `pack` is set, the world journal
collection otherwise. -/
def journal_case_lookup (g : GameState) (drop : NativeDrop) : Option Document :=
  if truthy drop.pack then
    (cget g.packs drop.pack).bind fun p => cget p.docs drop.id
  else
    cget g.journals drop.id

/-- The payload names a compendium pack that does not exist. In the branches
that dereference the pack with `!` this makes the call throw. -/
def pack_missing (g : GameState) (drop : NativeDrop) : Bool :=
  truthy drop.pack && (cget g.packs drop.pack).isNone

/-- Exact characterisation of when `resolve_drop` throws. -/
def resolve_throw (g : GameState) (drop : NativeDrop) : Bool :=
  if drop.type = some "Item" then item_throw g drop
  else if drop.type = some "Actor" then pack_missing g drop
  else if drop.type = some "JournalEntry" then pack_missing g drop
  else false

/-! Concrete fixtures used by witnesses and counterexamples. -/

/-- A world item document. -/
def docItm : Document := .mk "itm" []

/-- An actor document embedding `docItm`. -/
def docAct : Document := .mk "act" [("itm", docItm)]

/-- A journal document. -/
def docJr : Document := .mk "jr" []

/-- A token whose synthetic actor is `docAct`. -/
def tokOk : Token := ⟨some docAct⟩

/-- A token with a null actor. -/
def tokNull : Token := ⟨none⟩

/-- A scene containing both tokens. -/
def sceneFix : Scene := ⟨[("t1", tokOk), ("t0", tokNull)]⟩

/-- A compendium pack. -/
def packFix : Pack := ⟨[("pd", docItm), ("act", docAct)]⟩

/-- A small concrete host state. -/
def gFix : GameState :=
  ⟨[("act", docAct)], [("itm", docItm)], [("jr", docJr)], [("s1", sceneFix)],
    [("p1", packFix)]⟩

/-- An Item drop payload naming a compendium pack that does not exist in
`gFix`, with no actorId. -/
def dropC1ex : NativeDrop := { type := some "Item", id := some "itm", pack := some "ghost1" }

/-- An Actor drop payload naming a missing compendium pack. -/
def dropC2ex : NativeDrop := { type := some "Actor", id := some "act", pack := some "ghost2" }

/-- An Item drop payload (missing pack) used against claim C3. -/
def dropC3ex : NativeDrop := { type := some "Item", id := some "x", pack := some "ghost3" }

/-- A JournalEntry drop payload naming a missing compendium pack. -/
def dropC4ex : NativeDrop := { type := some "JournalEntry", id := some "jr", pack := some "ghost4" }

/-- A world-item drop payload that resolves in `gFix`. -/
def dropItmWit : NativeDrop := { type := some "Item", id := some "itm" }

/-- A world-actor drop payload that resolves in `gFix`. -/
def dropActWit : NativeDrop := { type := some "Actor", id := some "act" }

/-- A world-journal drop payload that resolves in `gFix`. -/
def dropJrWit : NativeDrop := { type := some "JournalEntry", id := some "jr" }

/-! State-threaded embedding: every host-API access made by
`resolve_native_drop` is routed through one of the `st_` getters below, each
of which takes and returns the host state. The source calls only accessor
APIs (`game.packs.get`, `pack.getDocument`, `game.scenes.get`,
`game.actors.get`, `game.items.get`, `game.journals.get` and property reads
on fetched documents), which per the host contract read the collections
without modifying them, so each getter returns the state it was given. -/

/-- `game.packs.get`. -/
def st_packs_get (g : GameState) (k : Option String) : Option Pack × GameState :=
  (cget g.packs k, g)

/-- `pack.getDocument`. -/
def st_getDocument (p : Pack) (g : GameState) (k : Option String) :
    Option Document × GameState :=
  (cget p.docs k, g)

/-- `game.scenes.get`. -/
def st_scenes_get (g : GameState) (k : Option String) : Option Scene × GameState :=
  (cget g.scenes k, g)

/-- `game.actors.get`. -/
def st_actors_get (g : GameState) (k : Option String) : Option Document × GameState :=
  (cget g.actors k, g)

/-- `game.items.get`. -/
def st_items_get (g : GameState) (k : Option String) : Option Document × GameState :=
  (cget g.items k, g)

/-- `game.journals.get`. -/
def st_journals_get (g : GameState) (k : Option String) : Option Document × GameState :=
  (cget g.journals k, g)

/-- The body of `resolve_native_drop` with the host state threaded through
every host-API access, following the source line by line. -/
def resolve_drop_st (g : GameState) (drop : NativeDrop) :
    Except Unit (Option ResolvedNativeDrop) × GameState :=
  if drop.type = some "Item" then
    if truthy drop.pack && truthy drop.actorId then
      let (pk, g1) := st_packs_get g drop.pack
      let (actor, g2) :=
        match pk with
        | none => (none, g1)
        | some p => st_getDocument p g1 drop.actorId
      (.ok ((actor.bind fun a => cget a.items drop.id).map .item), g2)
    else if truthy drop.sceneId && truthy drop.tokenId then
      let (sc, g1) := st_scenes_get g drop.sceneId
      let actor := (sc.bind fun s => cget s.tokens drop.tokenId).bind Token.tokenActor
      (.ok ((actor.bind fun a => cget a.items drop.id).map .item), g1)
    else if truthy drop.actorId then
      let (actor, g1) := st_actors_get g drop.actorId
      (.ok ((actor.bind fun a => cget a.items drop.id).map .item), g1)
    else if truthy drop.pack then
      let (pk, g1) := st_packs_get g drop.pack
      match pk with
      | none => (.error (), g1)
      | some p =>
        let (doc, g2) := st_getDocument p g1 drop.id
        (.ok (doc.map .item), g2)
    else
      let (it, g1) := st_items_get g drop.id
      (.ok (it.map .item), g1)
  else if drop.type = some "Actor" then
    if truthy drop.pack then
      let (pk, g1) := st_packs_get g drop.pack
      match pk with
      | none => (.error (), g1)
      | some p =>
        let (doc, g2) := st_getDocument p g1 drop.id
        (.ok (doc.map .actor), g2)
    else if truthy drop.sceneId && truthy drop.actorId then
      let (sc, g1) := st_scenes_get g drop.sceneId
      let actor := (sc.bind fun s => cget s.tokens drop.tokenId).bind Token.tokenActor
      (.ok (actor.map .actor), g1)
    else
      let (a, g1) := st_actors_get g drop.id
      (.ok (a.map .actor), g1)
  else if drop.type = some "JournalEntry" then
    if truthy drop.pack then
      let (pk, g1) := st_packs_get g drop.pack
      match pk with
      | none => (.error (), g1)
      | some p =>
        let (doc, g2) := st_getDocument p g1 drop.id
        (.ok (doc.map .journal), g2)
    else
      let (j, g1) := st_journals_get g drop.id
      (.ok (j.map .journal), g1)
  else
    (.ok none, g)

/-- `resolve_native_drop` with the host state threaded through. -/
def resolve_native_drop_st (parse : String → Option NativeDrop) (g : GameState)
    (event_data : String) :
    Except Unit (Option ResolvedNativeDrop) × GameState :=
  match parse event_data with
  | none => (.ok none, g)
  | some drop => resolve_drop_st g drop

/-! DOM-side model for the drag wrappers. -/

/-- A DOM element's data attributes (`element.dataset`). -/
structure DomElement where
  dataset : List (String × String)

/-- `element.dataset.<key>`. -/
def dataset_get (el : DomElement) (k : String) : Option String :=
  el.dataset.lookup k

/-- A machine-mind `RegRef` as far as this module reads it: an id, a possibly
null type, and a registry name. -/
structure RegRef where
  id : String
  type : Option String
  reg_name : String

/-- The payload stored into the data transfer by the dragstart handler
installed by `enable_dragging` (line 158):
`setData("text/plain", data_transfer_func(item))`. -/
def dragstart_transfer (data_transfer_func : DomElement → String)
    (el : DomElement) : Option String :=
  some (data_transfer_func el)

/-- The `data_transfer_func` that `enable_simple_ref_dragging` passes to
`enable_dragging` (lines 442-450): the serialized ref recreated from the
element, or the empty string. `recreate` abstracts
`recreate_ref_from_element` (helpers/refs.ts, outside the sources) and
`stringify` abstracts `JSON.stringify`. -/
def simple_ref_drag_payload (recreate : DomElement → Option RegRef)
    (stringify : RegRef → String) (el : DomElement) : String :=
  match recreate el with
  | some ref => stringify ref
  | none => ""

/-- The data transfer contents after a dragstart on an element wired by
`enable_simple_ref_dragging`. -/
def enable_simple_ref_dragging_transfer (recreate : DomElement → Option RegRef)
    (stringify : RegRef → String) (el : DomElement) : Option String :=
  dragstart_transfer (simple_ref_drag_payload recreate stringify) el

/-- An element with no data attributes. -/
def elNoData : DomElement := ⟨[]⟩

/-- A recreate function that never yields a ref. -/
def rcNone : DomElement → Option RegRef := fun _ => none

/-- A concrete stand-in serializer. -/
def sjFix : RegRef → String := fun r => r.id

/-- JavaScript `String.prototype.includes`: substring containment (and every
string contains `""`). -/
def str_includes (s sub : String) : Bool := decide (sub.data <:+: s.data)

/-- A parsed drag payload that passed `is_ref` (helpers/commons.ts, outside
the sources), as far as `enable_simple_ref_dropping` reads it: its `type`
string. `parse_ref` arguments below abstract `safe_json_parse` followed by
the `is_ref` check. -/
structure SimpleRef where
  rtype : String

/-- The allow-drop predicate that `enable_simple_ref_dropping` passes to
`enable_dropping` (dragdrop.ts lines 425-433): the payload must parse to a
valid ref and `(dest_type || "").includes(ref.type)` must hold. -/
def simple_ref_allow_drop (parse_ref : String → Option SimpleRef) (data : String)
    (dest : DomElement) : Bool :=
  match parse_ref data with
  | some r => str_includes ((dataset_get dest "type").getD "") r.rtype
  | none => false

/-- Whether the drop handler that `enable_simple_ref_dropping` passes to
`enable_dropping` (lines 397-422) accepts the drop, i.e. gets past its two
early returns (`!is_ref` and `dest_type && !dest_type.includes(type)`) and
goes on to stop propagation and resolve the ref. -/
def simple_ref_drop_handled (parse_ref : String → Option SimpleRef) (data : String)
    (dest : DomElement) : Bool :=
  match parse_ref data with
  | none => false
  | some r =>
    if truthy (dataset_get dest "type") &&
        !str_includes ((dataset_get dest "type").getD "") r.rtype then
      false
    else
      true

/-- A concrete valid-ref parser for witnesses. -/
def prFix : String → Option SimpleRef := fun _ => some ⟨"mech"⟩

/-! Effects view helpers (`effect_view` / `effect_categories_view`). -/

/-- A Lancer active effect as the view helpers read it: its uuid and label. -/
structure LancerActiveEffect where
  uuid : String
  label : String

/-- One category of prepared active effects: a label and its effects, as
produced by `LancerActiveEffect.prepareActiveEffectCategories`. -/
structure EffectCategory where
  label : String
  effects : List LancerActiveEffect

/-- Fixed markup of the effect_view template before the spliced uuid. -/
def ev_pre : String := "<div class=\"flexrow active-effect\" data-uuid=\""

/-- Fixed markup of the effect_view template between the uuid and the label. -/
def ev_mid : String := "\">\n                <div>\n                    Label: "

/-- Fixed markup of the effect_view template after the label. -/
def ev_post : String :=
  "\n                </div>\n                <a class=\"lancer-context-menu\" data-context-menu=\"active-effect\">\n                    <i class=\"fas fa-ellipsis-v\"></i>\n                </a>\n            </div>"

/-- Handlebars helper for a single effect (effects helper source, lines
548-559): the template literal with the uuid and label spliced in. -/
def effect_view (effect : LancerActiveEffect) : String :=
  ev_pre ++ effect.uuid ++ ev_mid ++ effect.label ++ ev_post

/-- Fixed markup of the per-category card template before the label. -/
def card_pre : String :=
  "\n        <div class=\"card clipped\">\n            <span class=\"lancer-header submajor\">"

/-- Fixed markup of the card template between the label and the effects. -/
def card_mid : String := "</span>\n            <div class=\"flexcol\">\n                "

/-- Fixed markup of the card template after the effects. -/
def card_post : String := "\n            </div>\n        </div>\n        "

/-- Handlebars helper for an entire smattering of effects (lines 564-581):
pushes one card per category onto an array in input order, then joins. -/
def effect_categories_view (effects : List EffectCategory) : String :=
  let categories := effects.foldl
    (fun acc cat => acc ++
      [card_pre ++ cat.label ++ card_mid ++
        String.join (cat.effects.map effect_view) ++ card_post])
    ([] : List String)
  "<div class=\"flexcol\">" ++ String.join categories ++ " </div>"

/-- Spec-side card for one category, from claim C8's words: the category's
label followed by the concatenation, in order, of `effect_view` of each of
its effects (with the card's fixed markup around them). -/
def effect_category_card (cat : EffectCategory) : String :=
  card_pre ++ cat.label ++ card_mid ++
    String.join (cat.effects.map effect_view) ++ card_post

/-- The parsed form of a Foundry registry name, as
`FoundryReg.parse_reg_args` (mm-util/foundry-reg.ts, outside the sources)
returns it: a source discriminator plus the ids the source carries. -/
structure RegArgs where
  src : String
  comp_id : Option String := none
  scene_id : Option String := none
  token_id : Option String := none
  actor_id : Option String := none

/-- The id of a scene token's actor: models the source chain
`game.scenes.get(sid)?.tokens.get(tid)?.actor.id` (dragdrop.ts lines 372 and
378). The optional chain short-circuits when the scene or token is missing,
but `.actor` is dereferenced without `?.`, so a token whose actor is null
makes the access throw. -/
def token_actor_id (g : GameState) (sid tid : Option String) :
    Except Unit (Option String) :=
  match (cget g.scenes sid).bind fun sc => cget sc.tokens tid with
  | none => .ok none
  | some tok =>
    match tok.tokenActor with
    | none => .error ()
    | some a => .ok (some a.docId)

/-- `convert_ref_to_native_drop` (dragdrop.ts lines 326-385), parameterised by
the imports it uses: `is_item_type` / `is_actor_type`
(item/lancer-item.ts and actor/lancer-actor.ts), `parse_reg_args`
(mm-util/foundry-reg.ts) and `get_pack_id` (mm-util/helpers.ts), all outside
the sources. The `evt` record is assembled field group by field group exactly
as in the source; `Except.error ()` models the `TypeError` thrown by the
unguarded `.actor.id` accesses. -/
def convert_ref_to_native_drop (is_item_type is_actor_type : String → Bool)
    (parse_reg_args : String → RegArgs) (get_pack_id : String → String)
    (g : GameState) (ref : RegRef) : Except Unit (Option NativeDrop) :=
  match ref.type with
  | none => .ok none
  | some t =>
    if t = "" then .ok none
    else
      let rn := parse_reg_args ref.reg_name
      if is_item_type t || is_actor_type t then
        let tyStr : String := if is_item_type t then "Item" else "Actor"
        let pck : Option String :=
          if rn.src = "comp_core" then some (get_pack_id t)
          else if rn.src = "comp" then rn.comp_id
          else none
        let sid : Option String :=
          if rn.src = "scene" then rn.scene_id
          else if rn.src = "scene_token" then rn.scene_id
          else none
        let tid : Option String :=
          if rn.src = "scene" then some ref.id
          else if rn.src = "scene_token" then rn.token_id
          else none
        let actorIdE : Except Unit (Option String) :=
          if rn.src = "comp_actor" then .ok rn.actor_id
          else if rn.src = "game_actor" then .ok rn.actor_id
          else if rn.src = "scene_token" then token_actor_id g sid tid
          else .ok none
        match actorIdE with
        | .error _ => .error ()
        | .ok aid =>
          let idE : Except Unit (Option String) :=
            if rn.src = "scene" then token_actor_id g sid tid
            else .ok (some ref.id)
          match idE with
          | .error _ => .error ()
          | .ok theId =>
            .ok (some { type := some tyStr, id := theId, pack := pck,
                        actorId := aid, tokenId := tid, sceneId := sid })
      else .ok none

/-- Spec-side (amended claim C9): the conversion throws exactly when the reg
name refers to a scene token whose token exists but whose actor is null. -/
def convert_throw (parse_reg_args : String → RegArgs) (g : GameState)
    (ref : RegRef) : Bool :=
  let rn := parse_reg_args ref.reg_name
  if rn.src = "scene" then
    match (cget g.scenes rn.scene_id).bind fun sc => cget sc.tokens (some ref.id) with
    | some tok => tok.tokenActor.isNone
    | none => false
  else if rn.src = "scene_token" then
    match (cget g.scenes rn.scene_id).bind fun sc => cget sc.tokens rn.token_id with
    | some tok => tok.tokenActor.isNone
    | none => false
  else false

/-- Spec-side (claim C9): the id the produced drop should carry — the ref's
own id, except for registry source "scene", where it is the id of the
referenced token's actor. -/
def convert_expected_id (parse_reg_args : String → RegArgs) (g : GameState)
    (ref : RegRef) : Option String :=
  let rn := parse_reg_args ref.reg_name
  if rn.src = "scene" then
    ((((cget g.scenes rn.scene_id).bind fun sc =>
      cget sc.tokens (some ref.id)).bind Token.tokenActor).map Document.docId)
  else some ref.id

/-- A ref whose reg name points at the actorless token `t0` of scene `s1`. -/
def refC9ex : RegRef := ⟨"t0", some "npc", "scene|s1"⟩

/-- A ref with a type neither item-typed nor actor-typed. -/
def refC9wit : RegRef := ⟨"x", some "weird", "game"⟩

/-- A reg-name parser mapping everything to scene `s1`. -/
def praC9 : String → RegArgs := fun _ => { src := "scene", scene_id := some "s1" }

/-- An item-type predicate recognising only "npc". -/
def iitC9 : String → Bool := fun t => t == "npc"

/-- An actor-type predicate recognising nothing. -/
def iatC9 : String → Bool := fun _ => false

/-- A concrete pack-id chooser. -/
def gpiC9 : String → String := fun _ => "pk"

/-- C1 (amended): for every drop payload that parses to an object with type
"Item", resolve_native_drop consults exactly one entity location, chosen by
the first matching case in the claimed order, and returns the resolved item
(or null when the lookup yields nothing) — except that when the compendium
case without an actorId is selected and the named pack does not exist, the
call throws instead of returning null. -/
theorem claim_C1_item_dispatch (parse : String → Option NativeDrop) (g : GameState)
    (s : String) (drop : NativeDrop) (hp : parse s = some drop)
    (ht : drop.type = some "Item") :
    resolve_native_drop parse g s =
      if item_throw g drop then .error ()
      else .ok ((item_case_lookup g drop).map ResolvedNativeDrop.item) := by
  simp only [resolve_native_drop, hp, resolve_drop, item_case_lookup, item_throw, ht]
  cases h1 : truthy drop.pack <;> cases h2 : truthy drop.actorId <;>
    cases h3 : truthy drop.sceneId <;> cases h4 : truthy drop.tokenId <;>
      simp [h1, h2, h3, h4] <;>
        cases hq : cget g.packs drop.pack <;> simp [hq]

/-- Witness for C1: a world item drop resolves through case 5 of the dispatch. -/
theorem claim_C1_item_dispatch_witness :
    resolve_native_drop (fun _ => some dropItmWit) gFix "payload" =
      if item_throw gFix dropItmWit then Except.error ()
      else Except.ok ((item_case_lookup gFix dropItmWit).map ResolvedNativeDrop.item) :=
  claim_C1_item_dispatch (fun _ => some dropItmWit) gFix "payload" dropItmWit rfl rfl

/-- Counterexample to C1 as stated: an Item payload naming a nonexistent
compendium pack (with no actorId) makes the call throw (modelled
`Except.error ()`) instead of returning null. -/
theorem claim_C1_counterexample :
    dropC1ex.type = some "Item" ∧
      resolve_native_drop (fun _ => some dropC1ex) gFix "" = Except.error () :=
  ⟨rfl, rfl⟩

/-- C2 (amended): for every drop payload that parses to an object with type
"Actor", resolve_native_drop disambiguates among the three claimed locations
in the claimed order and returns the resolved actor (or null when the lookup
yields nothing) — except that when pack is set and the named pack does not
exist, the call throws instead of returning null. -/
theorem claim_C2_actor_dispatch (parse : String → Option NativeDrop) (g : GameState)
    (s : String) (drop : NativeDrop) (hp : parse s = some drop)
    (ht : drop.type = some "Actor") :
    resolve_native_drop parse g s =
      if pack_missing g drop then .error ()
      else .ok ((actor_case_lookup g drop).map ResolvedNativeDrop.actor) := by
  simp only [resolve_native_drop, hp, resolve_drop, actor_case_lookup, pack_missing, ht]
  cases h1 : truthy drop.pack <;> cases h3 : truthy drop.sceneId <;>
    cases h2 : truthy drop.actorId <;> simp [h1, h2, h3] <;>
      cases hq : cget g.packs drop.pack <;> simp [hq]

/-- Witness for C2: a world actor drop resolves through case 3 of the dispatch. -/
theorem claim_C2_actor_dispatch_witness :
    resolve_native_drop (fun _ => some dropActWit) gFix "payload" =
      if pack_missing gFix dropActWit then Except.error ()
      else Except.ok ((actor_case_lookup gFix dropActWit).map ResolvedNativeDrop.actor) :=
  claim_C2_actor_dispatch (fun _ => some dropActWit) gFix "payload" dropActWit rfl rfl

/-- Counterexample to C2 as stated: an Actor payload naming a nonexistent
compendium pack makes the call throw instead of returning null. -/
theorem claim_C2_counterexample :
    dropC2ex.type = some "Actor" ∧
      resolve_native_drop (fun _ => some dropC2ex) gFix "" = Except.error () :=
  ⟨rfl, rfl⟩

/-- C4 (amended): for every drop payload that parses to an object with type
"JournalEntry", resolve_native_drop resolves it from the named compendium pack
when pack is set and from the world journal collection otherwise, returning
the resolved journal (or null when the lookup yields nothing) — except that
when the named pack does not exist, the call throws instead of returning
null. -/
theorem claim_C4_journal_dispatch (parse : String → Option NativeDrop) (g : GameState)
    (s : String) (drop : NativeDrop) (hp : parse s = some drop)
    (ht : drop.type = some "JournalEntry") :
    resolve_native_drop parse g s =
      if pack_missing g drop then .error ()
      else .ok ((journal_case_lookup g drop).map ResolvedNativeDrop.journal) := by
  simp only [resolve_native_drop, hp, resolve_drop, journal_case_lookup, pack_missing, ht]
  cases h1 : truthy drop.pack <;> simp [h1] <;>
    cases hq : cget g.packs drop.pack <;> simp [hq]

/-- Witness for C4: a world journal drop resolves through the world branch. -/
theorem claim_C4_journal_dispatch_witness :
    resolve_native_drop (fun _ => some dropJrWit) gFix "payload" =
      if pack_missing gFix dropJrWit then Except.error ()
      else Except.ok ((journal_case_lookup gFix dropJrWit).map ResolvedNativeDrop.journal) :=
  claim_C4_journal_dispatch (fun _ => some dropJrWit) gFix "payload" dropJrWit rfl rfl

/-- Counterexample to C4 as stated: a JournalEntry payload naming a
nonexistent compendium pack makes the call throw instead of returning null. -/
theorem claim_C4_counterexample :
    dropC4ex.type = some "JournalEntry" ∧
      resolve_native_drop (fun _ => some dropC4ex) gFix "" = Except.error () :=
  ⟨rfl, rfl⟩

/-- Helper: `resolve_drop` throws exactly under `resolve_throw`. -/
theorem resolve_drop_error_iff (g : GameState) (drop : NativeDrop) :
    resolve_drop g drop = Except.error () ↔ resolve_throw g drop = true := by
  unfold resolve_drop resolve_throw item_throw pack_missing
  by_cases hI : drop.type = some "Item"
  · simp only [hI, reduceIte]
    cases h1 : truthy drop.pack <;> cases h2 : truthy drop.actorId <;>
      cases h3 : truthy drop.sceneId <;> cases h4 : truthy drop.tokenId <;>
        simp [h1, h2, h3, h4] <;>
          cases hq : cget g.packs drop.pack <;> simp [hq]
  · by_cases hA : drop.type = some "Actor"
    · simp only [hA, if_neg hI, reduceIte]
      cases h1 : truthy drop.pack <;> cases h3 : truthy drop.sceneId <;>
        cases h2 : truthy drop.actorId <;> simp [h1, h2, h3] <;>
          cases hq : cget g.packs drop.pack <;> simp [hq]
    · by_cases hJ : drop.type = some "JournalEntry"
      · simp only [hJ, if_neg hI, if_neg hA, reduceIte]
        cases h1 : truthy drop.pack <;> simp [h1] <;>
          cases hq : cget g.packs drop.pack <;> simp [hq]
      · simp [hI, hA, hJ]

/-- C3 (amended): resolve_native_drop returns null for invalid JSON and for
unrecognised types; its only other failure behavior is returning null on a
failed lookup, except that a payload selecting a compendium-pack location
whose named pack does not exist makes the call throw; `resolve_throw`
characterises exactly the throwing inputs. -/
theorem claim_C3_failure_behavior (parse : String → Option NativeDrop) (g : GameState)
    (s : String) :
    (parse s = none → resolve_native_drop parse g s = Except.ok none) ∧
      (∀ drop, parse s = some drop → drop.type ≠ some "Item" →
        drop.type ≠ some "Actor" → drop.type ≠ some "JournalEntry" →
        resolve_native_drop parse g s = Except.ok none) ∧
      (resolve_native_drop parse g s = Except.error () ↔
        ∃ drop, parse s = some drop ∧ resolve_throw g drop = true) := by
  refine ⟨fun h => by simp [resolve_native_drop, h], fun drop hp hI hA hJ => ?_, ?_⟩
  · simp [resolve_native_drop, hp, resolve_drop, hI, hA, hJ]
  · cases hp : parse s with
    | none => simp [resolve_native_drop, hp]
    | some drop =>
        simp only [resolve_native_drop, hp, Option.some.injEq]
        constructor
        · intro h
          exact ⟨drop, rfl, (resolve_drop_error_iff g drop).mp h⟩
        · rintro ⟨d, hd1, hd2⟩
          cases hd1
          exact (resolve_drop_error_iff g drop).mpr hd2

/-- Witness for C3: a failed parse returns null. -/
theorem claim_C3_failure_behavior_witness :
    resolve_native_drop (fun _ => none) gFix "not json" = Except.ok none :=
  (claim_C3_failure_behavior (fun _ => none) gFix "not json").1 rfl

/-- Counterexample to C3 as stated: the function can throw rather than return
null — an Item payload naming a nonexistent compendium pack. -/
theorem claim_C3_counterexample :
    resolve_native_drop (fun _ => some dropC3ex) gFix "" = Except.error () :=
  rfl

/-- Helper: the state-threaded resolution returns the pure result and leaves
the host state unchanged. -/
theorem resolve_drop_st_spec (g : GameState) (drop : NativeDrop) :
    resolve_drop_st g drop = (resolve_drop g drop, g) := by
  unfold resolve_drop_st resolve_drop st_packs_get st_getDocument st_scenes_get
    st_actors_get st_items_get st_journals_get
  by_cases hI : drop.type = some "Item"
  · simp only [hI, reduceIte]
    cases h1 : truthy drop.pack <;> cases h2 : truthy drop.actorId <;>
      cases h3 : truthy drop.sceneId <;> cases h4 : truthy drop.tokenId <;>
        simp [h1, h2, h3, h4] <;>
          cases hq : cget g.packs drop.pack <;> simp [hq]
  · by_cases hA : drop.type = some "Actor"
    · simp only [hA, if_neg hI, reduceIte]
      cases h1 : truthy drop.pack <;> cases h3 : truthy drop.sceneId <;>
        cases h2 : truthy drop.actorId <;> simp [h1, h2, h3] <;>
          cases hq : cget g.packs drop.pack <;> simp [hq]
    · by_cases hJ : drop.type = some "JournalEntry"
      · simp only [hJ, if_neg hI, if_neg hA, reduceIte]
        cases h1 : truthy drop.pack <;> simp [h1] <;>
          cases hq : cget g.packs drop.pack <;> simp [hq]
      · simp [hI, hA, hJ]

/-- Helper: the same, lifted over the parse step. -/
theorem resolve_native_drop_st_spec (parse : String → Option NativeDrop)
    (g : GameState) (s : String) :
    resolve_native_drop_st parse g s = (resolve_native_drop parse g s, g) := by
  unfold resolve_native_drop_st resolve_native_drop
  cases hp : parse s with
  | none => rfl
  | some drop => exact resolve_drop_st_spec g drop

/-- C5: resolution only reads the host-managed collections — with the host
state threaded through every host-API access, the state after resolution is
the state before it, and the result agrees with the pure resolution. -/
theorem claim_C5_read_only (parse : String → Option NativeDrop) (g : GameState)
    (s : String) :
    (resolve_native_drop_st parse g s).2 = g ∧
      (resolve_native_drop_st parse g s).1 = resolve_native_drop parse g s := by
  rw [resolve_native_drop_st_spec]
  exact ⟨rfl, rfl⟩

/-- C6: resolution keeps no hidden state — running the resolution twice on the
same payload, threading the host state from the first call into the second,
returns the same result both times and leaves the host state as it started. -/
theorem claim_C6_stateless (parse : String → Option NativeDrop) (g : GameState)
    (s : String) :
    (resolve_native_drop_st parse (resolve_native_drop_st parse g s).2 s).1 =
        (resolve_native_drop_st parse g s).1 ∧
      (resolve_native_drop_st parse (resolve_native_drop_st parse g s).2 s).2 = g := by
  simp [resolve_native_drop_st_spec]

/-- C7: the drag payload placed in the data transfer by an element wired with
enable_simple_ref_dragging is exactly the serialization of the ref recreated
from the element, and the empty string when no ref can be recreated. -/
theorem claim_C7_drag_payload (recreate : DomElement → Option RegRef)
    (stringify : RegRef → String) (el : DomElement) :
    (∀ r, recreate el = some r →
      enable_simple_ref_dragging_transfer recreate stringify el = some (stringify r)) ∧
      (recreate el = none →
        enable_simple_ref_dragging_transfer recreate stringify el = some "") := by
  constructor
  · intro r h
    simp [enable_simple_ref_dragging_transfer, dragstart_transfer,
      simple_ref_drag_payload, h]
  · intro h
    simp [enable_simple_ref_dragging_transfer, dragstart_transfer,
      simple_ref_drag_payload, h]

/-- Witness for C7: an element from which no ref can be recreated transfers
the empty string. -/
theorem claim_C7_drag_payload_witness :
    enable_simple_ref_dragging_transfer rcNone sjFix elNoData = some "" :=
  (claim_C7_drag_payload rcNone sjFix elNoData).2 rfl

/-- Helper: folding push-backs over a list is mapping. -/
theorem foldl_push_map {α : Type} (f : α → String) (l : List α) (acc : List String) :
    l.foldl (fun a c => a ++ [f c]) acc = acc ++ l.map f := by
  induction l generalizing acc with
  | nil => simp
  | cons x xs ih => simp [ih]

/-- Helper: a string made of a prefix, the needle, and a suffix contains the
needle. -/
theorem str_includes_append (a sub b : String) :
    str_includes (a ++ sub ++ b) sub = true := by
  unfold str_includes
  simp only [decide_eq_true_eq, String.data_append]
  exact ⟨a.data, b.data, by simp⟩

/-- Helper: the empty string contains only the empty needle. -/
theorem str_includes_empty (sub : String) (h : sub ≠ "") :
    str_includes "" sub = false := by
  unfold str_includes
  simp only [decide_eq_false_iff_not, List.infix_nil]
  intro hc
  exact h (String.ext hc)

/-- C8: effect_categories_view renders exactly one card per category, in
input order (empty categories included), each card being the category's label
followed by the in-order concatenation of effect_view of its effects; and
effect_view's fragment contains the effect's uuid and its label. -/
theorem claim_C8_effect_views (cats : List EffectCategory) (e : LancerActiveEffect) :
    effect_categories_view cats =
        "<div class=\"flexcol\">" ++ String.join (cats.map effect_category_card) ++
          " </div>" ∧
      str_includes (effect_view e) e.uuid = true ∧
      str_includes (effect_view e) e.label = true := by
  refine ⟨?_, ?_, ?_⟩
  · unfold effect_categories_view
    rw [foldl_push_map]
    simp only [List.nil_append]
    rfl
  · rw [show effect_view e = ev_pre ++ e.uuid ++ (ev_mid ++ e.label ++ ev_post) from by
      simp [effect_view, String.append_assoc]]
    exact str_includes_append _ _ _
  · rw [show effect_view e = (ev_pre ++ e.uuid ++ ev_mid) ++ e.label ++ ev_post from by
      simp [effect_view, String.append_assoc]]
    exact str_includes_append _ _ _

/-- C10: the allow-drop predicate installed by enable_simple_ref_dropping is
true exactly when the payload parses to a valid ref whose type is contained
in the destination's data-type string; with no data-type attribute it is
false (for refs with a nonempty type), even though the drop handler installed
by the same function accepts a valid ref on such an element. -/
theorem claim_C10_allow_vs_handle (parse_ref : String → Option SimpleRef)
    (data : String) (dest : DomElement) (r : SimpleRef)
    (hp : parse_ref data = some r) (hne : r.rtype ≠ "") :
    (simple_ref_allow_drop parse_ref data dest = true ↔
        str_includes ((dataset_get dest "type").getD "") r.rtype = true) ∧
      (∀ d2, parse_ref d2 = none → simple_ref_allow_drop parse_ref d2 dest = false) ∧
      (dataset_get dest "type" = none →
        simple_ref_allow_drop parse_ref data dest = false ∧
          simple_ref_drop_handled parse_ref data dest = true) := by
  refine ⟨?_, ?_, fun hd => ⟨?_, ?_⟩⟩
  · simp [simple_ref_allow_drop, hp]
  · intro d2 h2
    simp [simple_ref_allow_drop, h2]
  · simp [simple_ref_allow_drop, hp, hd, str_includes_empty r.rtype hne]
  · simp [simple_ref_drop_handled, hp, hd, truthy]

/-- Witness for C10: a valid "mech" ref on an element with no data-type
attribute is refused by the allow-drop predicate but accepted by the drop
handler. -/
theorem claim_C10_allow_vs_handle_witness :
    simple_ref_allow_drop prFix "payload" elNoData = false ∧
      simple_ref_drop_handled prFix "payload" elNoData = true :=
  (claim_C10_allow_vs_handle prFix "payload" elNoData ⟨"mech"⟩ rfl (by decide)).2.2 rfl

/-- Helper: core case analysis of the conversion for refs whose type is
item-typed or actor-typed. -/
theorem convert_ref_main (is_item_type is_actor_type : String → Bool)
    (parse_reg_args : String → RegArgs) (get_pack_id : String → String)
    (g : GameState) (ref : RegRef) (t : String) (htype : ref.type = some t)
    (hte : ¬ t = "") (hty : is_item_type t = true ∨ is_actor_type t = true) :
    (convert_throw parse_reg_args g ref = true →
      convert_ref_to_native_drop is_item_type is_actor_type parse_reg_args get_pack_id g ref
        = Except.error ()) ∧
      (convert_throw parse_reg_args g ref = false →
        ∃ d, convert_ref_to_native_drop is_item_type is_actor_type parse_reg_args get_pack_id
            g ref = Except.ok (some d) ∧
          d.type = some (if is_item_type t then "Item" else "Actor") ∧
          d.id = convert_expected_id parse_reg_args g ref) := by
  have hor : (is_item_type t || is_actor_type t) = true := by
    rcases hty with h | h <;> simp [h]
  unfold convert_ref_to_native_drop convert_throw convert_expected_id token_actor_id
  rw [htype]
  simp only [if_neg hte, hor, if_true, reduceIte]
  by_cases h1 : (parse_reg_args ref.reg_name).src = "scene"
  · simp only [h1, String.reduceEq, reduceIte]
    cases htok : (cget g.scenes (parse_reg_args ref.reg_name).scene_id).bind
        fun sc => cget sc.tokens (some ref.id) with
    | none => simp [htok]
    | some tok =>
        cases hact : tok.tokenActor with
        | none => simp [htok, hact]
        | some a => simp [htok, hact]
  · by_cases h2 : (parse_reg_args ref.reg_name).src = "scene_token"
    · simp only [h1, h2, String.reduceEq, reduceIte]
      cases htok : (cget g.scenes (parse_reg_args ref.reg_name).scene_id).bind
          fun sc => cget sc.tokens (parse_reg_args ref.reg_name).token_id with
      | none => simp [htok]
      | some tok =>
          cases hact : tok.tokenActor with
          | none => simp [htok, hact]
          | some a => simp [htok, hact]
    · by_cases h3 : (parse_reg_args ref.reg_name).src = "comp_actor"
      · simp [h1, h2, h3]
      · by_cases h4 : (parse_reg_args ref.reg_name).src = "game_actor"
        · simp [h1, h2, h3, h4]
        · simp [h1, h2, h3, h4]

/-- C9 (amended): convert_ref_to_native_drop returns null exactly when the
ref's type is falsy or is neither an item type nor an actor type; for every
other ref it returns a drop object whose type field is "Item" for item types
and "Actor" for actor types, and whose id equals the ref's id except when the
registry source is "scene", where the id is taken from the referenced token's
actor — except that when the reg name refers to a scene token that exists but
whose actor is null, the unguarded `.actor.id` access makes the call throw
instead of returning. -/
theorem claim_C9_convert_ref (is_item_type is_actor_type : String → Bool)
    (parse_reg_args : String → RegArgs) (get_pack_id : String → String)
    (g : GameState) (ref : RegRef) :
    (truthy ref.type = false →
      convert_ref_to_native_drop is_item_type is_actor_type parse_reg_args get_pack_id g ref
        = Except.ok none) ∧
      (∀ t, ref.type = some t → ¬ t = "" → is_item_type t = false →
        is_actor_type t = false →
        convert_ref_to_native_drop is_item_type is_actor_type parse_reg_args get_pack_id g ref
          = Except.ok none) ∧
      (∀ t, ref.type = some t → ¬ t = "" →
        (is_item_type t = true ∨ is_actor_type t = true) →
        if convert_throw parse_reg_args g ref then
          convert_ref_to_native_drop is_item_type is_actor_type parse_reg_args get_pack_id g ref
            = Except.error ()
        else
          ∃ d, convert_ref_to_native_drop is_item_type is_actor_type parse_reg_args get_pack_id
              g ref = Except.ok (some d) ∧
            d.type = some (if is_item_type t then "Item" else "Actor") ∧
            d.id = convert_expected_id parse_reg_args g ref) ∧
      (convert_ref_to_native_drop is_item_type is_actor_type parse_reg_args get_pack_id g ref
          = Except.ok none →
        truthy ref.type = false ∨
          ∃ t, ref.type = some t ∧ is_item_type t = false ∧ is_actor_type t = false) := by
  refine ⟨fun hf => ?_, fun t ht hte hit hia => ?_, fun t ht hte hty => ?_, fun hnull => ?_⟩
  · cases htp : ref.type with
    | none => simp [convert_ref_to_native_drop, htp]
    | some t =>
        rw [htp] at hf
        have hempty : t = "" := by simpa [truthy] using hf
        simp [convert_ref_to_native_drop, htp, hempty]
  · simp [convert_ref_to_native_drop, ht, hte, hit, hia]
  · have hmain := convert_ref_main is_item_type is_actor_type parse_reg_args get_pack_id
      g ref t ht hte hty
    cases hthr : convert_throw parse_reg_args g ref with
    | true =>
        simp only [reduceIte]
        exact hmain.1 hthr
    | false =>
        simp only [Bool.false_eq_true, reduceIte]
        exact hmain.2 hthr
  · cases htp : ref.type with
    | none => exact Or.inl (by simp [truthy, htp])
    | some t =>
        by_cases hte : t = ""
        · exact Or.inl (by simp [truthy, htp, hte])
        · cases hit : is_item_type t with
          | false =>
              cases hia : is_actor_type t with
              | false => exact Or.inr ⟨t, rfl, hit, hia⟩
              | true =>
                  exfalso
                  have hmain := convert_ref_main is_item_type is_actor_type parse_reg_args
                    get_pack_id g ref t htp hte (Or.inr hia)
                  cases hthr : convert_throw parse_reg_args g ref with
                  | true =>
                      have hcontr := hmain.1 hthr
                      rw [hnull] at hcontr
                      simp at hcontr
                  | false =>
                      obtain ⟨d, hd, -, -⟩ := hmain.2 hthr
                      rw [hnull] at hd
                      simp at hd
          | true =>
              exfalso
              have hmain := convert_ref_main is_item_type is_actor_type parse_reg_args
                get_pack_id g ref t htp hte (Or.inl hit)
              cases hthr : convert_throw parse_reg_args g ref with
              | true =>
                  have hcontr := hmain.1 hthr
                  rw [hnull] at hcontr
                  simp at hcontr
              | false =>
                  obtain ⟨d, hd, -, -⟩ := hmain.2 hthr
                  rw [hnull] at hd
                  simp at hd

/-- Witness for C9: a ref whose type is neither item- nor actor-typed
converts to null. -/
theorem claim_C9_convert_ref_witness :
    convert_ref_to_native_drop (fun _ => false) (fun _ => false) praC9 gpiC9 gFix refC9wit
      = Except.ok none :=
  (claim_C9_convert_ref (fun _ => false) (fun _ => false) praC9 gpiC9 gFix refC9wit).2.1
    "weird" rfl (by decide) rfl rfl

/-- Counterexample to C9 as stated: an item-typed ref (so the claim demands a
drop object in return) whose reg name points at an existing token with a null
actor makes the conversion throw (modelled Except.error ()) instead of
returning a drop object. -/
theorem claim_C9_counterexample :
    truthy refC9ex.type = true ∧ iitC9 "npc" = true ∧
      convert_ref_to_native_drop iitC9 iatC9 praC9 gpiC9 gFix refC9ex = Except.error () :=
  ⟨rfl, rfl, rfl⟩

end LancerDragDrop
